import Mathlib

/-!
Verification of the gmail-mcp message composition, threading and draft-store
engine (`src/server.py`, `src/gmail_client.py`) against its specification.

The Python code is shallowly embedded: dictionaries become structures or
association lists, exceptions become `Except`, Python truthiness on optional
strings is modelled explicitly (`none` and `some ""` are both falsy), and the
external Gmail transport is a function parameter.
-/

/-- The typed errors raised by the system (spec section 7 taxonomy; in the
source they are `ValueError` / `FileNotFoundError` / transport exceptions with
the corresponding messages). -/
inductive GmailError where
  | ConfirmationRequired : GmailError
  | DraftNotFound : String → GmailError
  | MissingFilename : GmailError
  | MissingPathOrContent : GmailError
  | Base64DecodeError : GmailError
  | FileNotFound : String → GmailError
  | InvalidMimeType : String → GmailError
  | MissingFromHeader : GmailError
  | TransportError : String → GmailError
deriving DecidableEq, Repr

/-- An attachment descriptor dictionary as accepted by `_add_attachments`
(`gmail_client.py` lines 41-63): each key may be absent. -/
structure AttachmentSpec where
  contentBase64 : Option String := none
  path : Option String := none
  filename : Option String := none
  mimeType : Option String := none
deriving DecidableEq, Repr

/-- A stored draft record, exactly the dictionary built by `draft_email`
(`server.py` lines 61-67). -/
structure DraftRecord where
  toAddr : String
  subject : String
  body : String
  htmlBody : Option String
  attachments : Option (List AttachmentSpec)
deriving DecidableEq, Repr

/-- The persisted draft mapping (`drafts.json`), a dictionary keyed by draft
id.  Modelled as an association list; real Python dictionaries have unique
keys, so `storeErase` may remove every binding of a key. -/
abbrev DraftStore := List (String × DraftRecord)

/-- Dictionary lookup `drafts[draft_id]` / `draft_id in drafts`. -/
def storeLookup : DraftStore → String → Option DraftRecord
  | [], _ => none
  | (k', v) :: rest, k => if k' = k then some v else storeLookup rest k

/-- Dictionary assignment `drafts[draft_id] = record`. -/
def storeSet : DraftStore → String → DraftRecord → DraftStore
  | [], k, v => [(k, v)]
  | (k', v') :: rest, k, v =>
    if k' = k then (k, v) :: rest else (k', v') :: storeSet rest k v

/-- Dictionary removal `drafts.pop(draft_id)` (the key is unique in a real
dictionary, so removing every binding is the faithful reading). -/
def storeErase : DraftStore → String → DraftStore
  | [], _ => []
  | (k', v) :: rest, k =>
    if k' = k then storeErase rest k else (k', v) :: storeErase rest k

/-- The keys of the store. -/
def storeKeys (s : DraftStore) : List String := s.map Prod.fst

theorem storeLookup_set_same (s : DraftStore) (k : String) (v : DraftRecord) :
    storeLookup (storeSet s k v) k = some v := by
  induction s with
  | nil => simp [storeSet, storeLookup]
  | cons kv rest ih =>
    by_cases h : kv.1 = k
    · simp [storeSet, h, storeLookup]
    · simpa [storeSet, h, storeLookup] using ih

theorem storeLookup_set_ne (s : DraftStore) (k k' : String) (v : DraftRecord)
    (h : k' ≠ k) : storeLookup (storeSet s k v) k' = storeLookup s k' := by
  induction s with
  | nil => simp [storeSet, storeLookup, Ne.symm h]
  | cons kv rest ih =>
    by_cases hk : kv.1 = k
    · subst hk
      simp [storeSet, storeLookup, Ne.symm h]
    · by_cases hk' : kv.1 = k'
      · simp [storeSet, hk, storeLookup, hk', h]
      · simpa [storeSet, hk, storeLookup, hk'] using ih

theorem storeLookup_erase_same (s : DraftStore) (k : String) :
    storeLookup (storeErase s k) k = none := by
  induction s with
  | nil => simp [storeErase, storeLookup]
  | cons kv rest ih =>
    by_cases h : kv.1 = k
    · simpa [storeErase, h] using ih
    · simpa [storeErase, h, storeLookup] using ih

theorem storeLookup_erase_ne (s : DraftStore) (k k' : String) (h : k' ≠ k) :
    storeLookup (storeErase s k) k' = storeLookup s k' := by
  induction s with
  | nil => simp [storeErase, storeLookup]
  | cons kv rest ih =>
    by_cases hk : kv.1 = k
    · have hne : ¬ kv.1 = k' := by
        intro hh
        exact h (hh ▸ hk)
      simpa [storeErase, hk, storeLookup, hne, Ne.symm h] using ih
    · by_cases hk' : kv.1 = k'
      · simp [storeErase, hk, storeLookup, hk', h]
      · simpa [storeErase, hk, storeLookup, hk'] using ih

/-- `draft_email` (`server.py` lines 50-70): create a draft record, store it
under a fresh identifier (`str(uuid.uuid4())`, passed in as `freshId`), and
return the id, the preview record and the updated store. -/
def draft_email (store : DraftStore) (freshId : String)
    (toAddr subject body : String) (htmlBody : Option String)
    (attachments : Option (List AttachmentSpec)) :
    String × DraftRecord × DraftStore :=
  let r : DraftRecord := ⟨toAddr, subject, body, htmlBody, attachments⟩
  (freshId, r, storeSet store freshId r)

/-- `delete_draft` (`server.py` lines 107-116): fail with `DraftNotFound` on an
unknown id, otherwise remove the draft and return it with the updated store. -/
def delete_draft (store : DraftStore) (draftId : String) :
    Except GmailError (DraftRecord × DraftStore) :=
  match storeLookup store draftId with
  | none => .error (.DraftNotFound draftId)
  | some d => .ok (d, storeErase store draftId)

/-- `send_draft` (`server.py` lines 119-139).  The external transport
(`send_email` on the draft's fields) is a parameter; the result carries the
outcome, the resulting persisted store, and the number of transport calls
made.  Mirrors the source order: confirmation gate, store lookup, transport
call, and only then removal of the sent draft. -/
def send_draft (store : DraftStore) (draftId : String) (confirm : Bool)
    (transport : DraftRecord → Except GmailError String) :
    Except GmailError (String × DraftRecord) × DraftStore × Nat :=
  if !confirm then (.error .ConfirmationRequired, store, 0)
  else
    match storeLookup store draftId with
    | none => (.error (.DraftNotFound draftId), store, 0)
    | some d =>
      match transport d with
      | .error e => (.error e, store, 1)
      | .ok messageId => (.ok (messageId, d), storeErase store draftId, 1)

/-- Modelled from the spec: the repository's tool surface has no direct
get-draft operation (only `list_drafts`, `delete_draft`, `send_draft`); the
spec's Draft Store contract (section 4.4) specifies `get(id)` returning the
stored record and failing with `DraftNotFound` on an unknown id.  Modelled as
a lookup in the loaded mapping. -/
def get_draft (store : DraftStore) (draftId : String) :
    Except GmailError DraftRecord :=
  match storeLookup store draftId with
  | none => .error (.DraftNotFound draftId)
  | some d => .ok d

/-- `reply_message` tool wrapper (`server.py` lines 154-173): confirmation gate
before any transport call; the pair carries the outcome and the number of
transport calls. -/
def reply_message (confirm : Bool)
    (transport : Unit → Except GmailError String) :
    Except GmailError String × Nat :=
  if !confirm then (.error .ConfirmationRequired, 0)
  else
    match transport () with
    | .error e => (.error e, 1)
    | .ok i => (.ok i, 1)

/-- `forward_message` tool wrapper (`server.py` lines 176-197): confirmation
gate before any transport call. -/
def forward_message_tool (confirm : Bool)
    (transport : Unit → Except GmailError String) :
    Except GmailError String × Nat :=
  if !confirm then (.error .ConfirmationRequired, 0)
  else
    match transport () with
    | .error e => (.error e, 1)
    | .ok i => (.ok i, 1)

/-- `trash_message` tool wrapper (`server.py` lines 232-237): confirmation gate
before any transport call. -/
def trash_message_tool (confirm : Bool)
    (transport : Unit → Except GmailError String) :
    Except GmailError String × Nat :=
  if !confirm then (.error .ConfirmationRequired, 0)
  else
    match transport () with
    | .error e => (.error e, 1)
    | .ok i => (.ok i, 1)

/-- C2: for every draft id and store state, `send_draft` without `confirm=true`
fails with `ConfirmationRequired`, leaves the store mapping unchanged and makes
no transport call; the same refusal-before-any-effect holds for
`reply_message`, `forward_message` and `trash_message`. -/
theorem C2_confirm_gate_refusal :
    (∀ (store : DraftStore) (draftId : String)
        (tr : DraftRecord → Except GmailError String),
      send_draft store draftId false tr =
        (.error .ConfirmationRequired, store, 0)) ∧
    (∀ tr, reply_message false tr = (.error .ConfirmationRequired, 0)) ∧
    (∀ tr, forward_message_tool false tr = (.error .ConfirmationRequired, 0)) ∧
    (∀ tr, trash_message_tool false tr = (.error .ConfirmationRequired, 0)) :=
  ⟨fun _ _ _ => rfl, fun _ => rfl, fun _ => rfl, fun _ => rfl⟩

/-- C5: with `confirm=true`, a transport failure leaves the draft store exactly
as it was (so the send can be retried with the same id); the draft is removed
only when the transport call returns successfully. -/
theorem C5_failed_send_keeps_draft :
    (∀ (store : DraftStore) (draftId : String) (d : DraftRecord)
        (tr : DraftRecord → Except GmailError String) (e : GmailError),
      storeLookup store draftId = some d → tr d = .error e →
      send_draft store draftId true tr = (.error e, store, 1)) ∧
    (∀ (store : DraftStore) (draftId : String) (d : DraftRecord)
        (tr : DraftRecord → Except GmailError String) (messageId : String),
      storeLookup store draftId = some d → tr d = .ok messageId →
      send_draft store draftId true tr =
        (.ok (messageId, d), storeErase store draftId, 1)) := by
  constructor
  · intro store draftId d tr e hl ht
    simp [send_draft, hl, ht]
  · intro store draftId d tr messageId hl ht
    simp [send_draft, hl, ht]

/-- Witness for C5 at a concrete store and failing transport. -/
theorem C5_failed_send_keeps_draft_witness :
    send_draft [("d1", ⟨"a@b.c", "hello", "text", none, none⟩)] "d1" true
        (fun _ => .error (.TransportError "boom")) =
      (.error (.TransportError "boom"),
        [("d1", ⟨"a@b.c", "hello", "text", none, none⟩)], 1) :=
  C5_failed_send_keeps_draft.1 [("d1", ⟨"a@b.c", "hello", "text", none, none⟩)]
    "d1" ⟨"a@b.c", "hello", "text", none, none⟩
    (fun _ => .error (.TransportError "boom")) (.TransportError "boom")
    (by rfl) (by rfl)

/-- C8: draft lifecycle — create then read returns the same fields; a
successful confirmed send consumes the draft so a later read or delete fails
with `DraftNotFound`; delete on an id not in the store fails with
`DraftNotFound`. -/
theorem C8_draft_lifecycle :
    (∀ (store : DraftStore) (freshId toAddr subject body : String)
        (htmlBody : Option String) (atts : Option (List AttachmentSpec)),
      get_draft (draft_email store freshId toAddr subject body htmlBody atts).2.2
          freshId = .ok ⟨toAddr, subject, body, htmlBody, atts⟩) ∧
    (∀ (store : DraftStore) (draftId : String) (d : DraftRecord)
        (tr : DraftRecord → Except GmailError String)
        (messageId : String) (store' : DraftStore) (n : Nat),
      send_draft store draftId true tr = (.ok (messageId, d), store', n) →
      get_draft store' draftId = .error (.DraftNotFound draftId) ∧
      delete_draft store' draftId = .error (.DraftNotFound draftId)) ∧
    (∀ (store : DraftStore) (draftId : String),
      storeLookup store draftId = none →
      delete_draft store draftId = .error (.DraftNotFound draftId)) := by
  refine ⟨?_, ?_, ?_⟩
  · intro store freshId toAddr subject body htmlBody atts
    simp [draft_email, get_draft, storeLookup_set_same]
  · intro store draftId d tr messageId store' n h
    cases hl : storeLookup store draftId with
    | none => simp [send_draft, hl] at h
    | some d' =>
      cases ht : tr d' with
      | error e => simp [send_draft, hl, ht] at h
      | ok mid =>
        have hs : (send_draft store draftId true tr).2.1 = store' := by
          rw [h]
        have hstore : storeErase store draftId = store' := by
          simpa [send_draft, hl, ht] using hs
        subst hstore
        constructor
        · simp [get_draft, storeLookup_erase_same]
        · simp [delete_draft, storeLookup_erase_same]
  · intro store draftId h
    simp [delete_draft, h]

/-- Witness for C8 at a concrete one-draft store: a confirmed successful send
empties the store, after which read and delete both fail, and delete on an
unknown id fails. -/
theorem C8_draft_lifecycle_witness :
    (get_draft ([] : DraftStore) "d1" = .error (.DraftNotFound "d1") ∧
      delete_draft ([] : DraftStore) "d1" = .error (.DraftNotFound "d1")) ∧
    delete_draft ([] : DraftStore) "nope" = .error (.DraftNotFound "nope") :=
  ⟨C8_draft_lifecycle.2.1 [("d1", ⟨"a@b.c", "s", "b", none, none⟩)] "d1"
      ⟨"a@b.c", "s", "b", none, none⟩ (fun _ => .ok "m1") "m1" [] 1 (by rfl),
    C8_draft_lifecycle.2.2 [] "nope" (by rfl)⟩

/-- C10: frame property of the draft store — `draft_email` adds exactly one
fresh binding and leaves every other id's record unchanged, and `delete_draft`
and a successful confirmed `send_draft` change no id other than their own. -/
theorem C10_store_mutation_frame :
    (∀ (store : DraftStore) (freshId toAddr subject body : String)
        (htmlBody : Option String) (atts : Option (List AttachmentSpec))
        (k : String), k ≠ freshId →
      storeLookup (draft_email store freshId toAddr subject body htmlBody atts).2.2 k
        = storeLookup store k) ∧
    (∀ (store : DraftStore) (freshId toAddr subject body : String)
        (htmlBody : Option String) (atts : Option (List AttachmentSpec)),
      storeLookup (draft_email store freshId toAddr subject body htmlBody atts).2.2
          freshId = some ⟨toAddr, subject, body, htmlBody, atts⟩) ∧
    (∀ (store : DraftStore) (draftId : String) (d : DraftRecord)
        (store' : DraftStore),
      delete_draft store draftId = .ok (d, store') →
      ∀ k, k ≠ draftId → storeLookup store' k = storeLookup store k) ∧
    (∀ (store : DraftStore) (draftId : String)
        (tr : DraftRecord → Except GmailError String)
        (messageId : String) (d : DraftRecord) (store' : DraftStore) (n : Nat),
      send_draft store draftId true tr = (.ok (messageId, d), store', n) →
      ∀ k, k ≠ draftId → storeLookup store' k = storeLookup store k) := by
  refine ⟨?_, ?_, ?_, ?_⟩
  · intro store freshId toAddr subject body htmlBody atts k hk
    simpa [draft_email] using storeLookup_set_ne store freshId k _ hk
  · intro store freshId toAddr subject body htmlBody atts
    simpa [draft_email] using storeLookup_set_same store freshId _
  · intro store draftId d store' h k hk
    cases hl : storeLookup store draftId with
    | none => simp [delete_draft, hl] at h
    | some d' =>
      have hs : (delete_draft store draftId).toOption.map Prod.snd
          = some store' := by
        rw [h]
        rfl
      have hstore : storeErase store draftId = store' := by
        simpa [delete_draft, hl, Except.toOption] using hs
      subst hstore
      exact storeLookup_erase_ne store draftId k hk
  · intro store draftId tr messageId d store' n h k hk
    cases hl : storeLookup store draftId with
    | none => simp [send_draft, hl] at h
    | some d' =>
      cases ht : tr d' with
      | error e => simp [send_draft, hl, ht] at h
      | ok mid =>
        have hs : (send_draft store draftId true tr).2.1 = store' := by
          rw [h]
        have hstore : storeErase store draftId = store' := by
          simpa [send_draft, hl, ht] using hs
        subst hstore
        exact storeLookup_erase_ne store draftId k hk

/-- Witness for C10 at a concrete two-draft store. -/
theorem C10_store_mutation_frame_witness :
    storeLookup
        (draft_email [("d1", ⟨"a", "s", "b", none, none⟩)] "d2" "c" "t" "u"
          none none).2.2 "d1"
      = storeLookup [("d1", ⟨"a", "s", "b", none, none⟩)] "d1" ∧
    storeLookup ([("d2", ⟨"c", "t", "u", none, none⟩)] : DraftStore) "d2" =
      storeLookup [("d1", ⟨"a", "s", "b", none, none⟩),
        ("d2", ⟨"c", "t", "u", none, none⟩)] "d2" :=
  ⟨C10_store_mutation_frame.1 [("d1", ⟨"a", "s", "b", none, none⟩)] "d2" "c"
      "t" "u" none none "d1" (by decide),
    C10_store_mutation_frame.2.2.1
      [("d1", ⟨"a", "s", "b", none, none⟩), ("d2", ⟨"c", "t", "u", none, none⟩)]
      "d1" ⟨"a", "s", "b", none, none⟩ [("d2", ⟨"c", "t", "u", none, none⟩)]
      (by rfl) "d2" (by decide)⟩

/-- Python `str.lower()` (modelled characterwise with `Char.toLower`). -/
def pyLower (s : String) : String := ⟨s.data.map Char.toLower⟩

/-- Python `str.strip()`: remove leading and trailing whitespace. -/
def pyStrip (s : String) : String :=
  ⟨List.rdropWhile (fun c => c.isWhitespace)
    (s.data.dropWhile (fun c => c.isWhitespace))⟩

/-- Python `str.startswith`. -/
def pyStartsWith (s p : String) : Bool := p.data.isPrefixOf s.data

/-- The reply-subject computation of `reply_to_message` (`gmail_client.py`
lines 202-204): keep the subject if it already starts with `re:`
case-insensitively, otherwise prepend `Re: ` and strip surrounding
whitespace. -/
def replySubject (subject : String) : String :=
  if pyStartsWith (pyLower subject) "re:" then subject
  else pyStrip ("Re: " ++ subject)

/-- The forward-subject computation of `forward_message` (`gmail_client.py`
lines 225-227). -/
def fwdSubject (subject : String) : String :=
  if pyStartsWith (pyLower subject) "fwd:" then subject
  else pyStrip ("Fwd: " ++ subject)

theorem rdropWhile_append_left {α} (p : α → Bool) (l₁ l₂ : List α)
    (h : l₂.rdropWhile p ≠ []) :
    (l₁ ++ l₂).rdropWhile p = l₁ ++ l₂.rdropWhile p := by
  have h2 : (l₂.reverse.dropWhile p).isEmpty = false := by
    cases hdw : l₂.reverse.dropWhile p with
    | nil => exact absurd (by simp [List.rdropWhile, hdw]) h
    | cons x xs => rfl
  unfold List.rdropWhile
  rw [List.reverse_append, List.dropWhile_append, h2, if_neg (by simp),
    List.reverse_append, List.reverse_reverse]

theorem rdropWhile_append_all {α} (p : α → Bool) (l₁ l₂ : List α)
    (h : ∀ x ∈ l₂, p x) :
    (l₁ ++ l₂).rdropWhile p = l₁.rdropWhile p := by
  unfold List.rdropWhile
  rw [List.reverse_append,
    List.dropWhile_append_of_pos (fun a ha => h a (List.mem_reverse.mp ha))]

theorem strip_keep_front (c : Char) (a r : List Char)
    (hc : c.isWhitespace = false)
    (hlast : ((c :: a).getLast (by simp)).isWhitespace = false) :
    ∃ t, List.rdropWhile (fun x => x.isWhitespace)
        (List.dropWhile (fun x => x.isWhitespace) ((c :: a) ++ r))
      = (c :: a) ++ t := by
  have hdrop : List.dropWhile (fun x => x.isWhitespace) ((c :: a) ++ r)
      = (c :: a) ++ r := by
    rw [List.cons_append]
    exact List.dropWhile_cons_of_neg (by simp [hc])
  rw [hdrop]
  by_cases hr : List.rdropWhile (fun x => x.isWhitespace) r = []
  · have hall : ∀ x ∈ r, x.isWhitespace :=
      List.rdropWhile_eq_nil_iff.mp hr
    rw [rdropWhile_append_all _ _ _ hall]
    refine ⟨[], ?_⟩
    rw [List.append_nil]
    exact List.rdropWhile_eq_self_iff.mpr (fun hl => by simp [hlast])
  · rw [rdropWhile_append_left _ _ _ hr]
    exact ⟨_, rfl⟩

theorem replySubject_prefixed_starts (s : String) :
    pyStartsWith (pyLower (pyStrip ("Re: " ++ s))) "re:" = true := by
  obtain ⟨t, ht⟩ := strip_keep_front 'R' ['e', ':'] (' ' :: s.data)
    (by decide) (by decide)
  have hdata : (pyStrip ("Re: " ++ s)).data = ['R', 'e', ':'] ++ t := by
    show List.rdropWhile _ (List.dropWhile _ ("Re: " ++ s).data) = _
    rw [String.data_append]
    exact ht
  show List.isPrefixOf "re:".data (pyLower (pyStrip ("Re: " ++ s))).data = true
  show List.isPrefixOf "re:".data ((pyStrip ("Re: " ++ s)).data.map _) = true
  rw [hdata]
  simp [List.isPrefixOf]

theorem fwdSubject_prefixed_starts (s : String) :
    pyStartsWith (pyLower (pyStrip ("Fwd: " ++ s))) "fwd:" = true := by
  obtain ⟨t, ht⟩ := strip_keep_front 'F' ['w', 'd', ':'] (' ' :: s.data)
    (by decide) (by decide)
  have hdata : (pyStrip ("Fwd: " ++ s)).data = ['F', 'w', 'd', ':'] ++ t := by
    show List.rdropWhile _ (List.dropWhile _ ("Fwd: " ++ s).data) = _
    rw [String.data_append]
    exact ht
  show List.isPrefixOf "fwd:".data (pyLower (pyStrip ("Fwd: " ++ s))).data = true
  show List.isPrefixOf "fwd:".data ((pyStrip ("Fwd: " ++ s)).data.map _) = true
  rw [hdata]
  simp [List.isPrefixOf]

/-- C4 (amended): subject prefixing is idempotent and case-insensitive — a
subject already starting with `re:` / `fwd:` case-insensitively is returned
unchanged; otherwise the prefix is prepended and surrounding whitespace is
stripped (so an empty or all-whitespace subject yields `"Re:"` rather than
`"Re: " ++ subject`); applying the operation to its own output changes
nothing. -/
theorem C4_subject_prefixing :
    (∀ s, pyStartsWith (pyLower s) "re:" = true → replySubject s = s) ∧
    (∀ s, pyStartsWith (pyLower s) "re:" = false →
      replySubject s = pyStrip ("Re: " ++ s)) ∧
    (∀ s, replySubject (replySubject s) = replySubject s) ∧
    (∀ s, pyStartsWith (pyLower s) "fwd:" = true → fwdSubject s = s) ∧
    (∀ s, pyStartsWith (pyLower s) "fwd:" = false →
      fwdSubject s = pyStrip ("Fwd: " ++ s)) ∧
    (∀ s, fwdSubject (fwdSubject s) = fwdSubject s) := by
  refine ⟨fun s h => by simp [replySubject, h],
    fun s h => by simp [replySubject, h],
    fun s => ?_,
    fun s h => by simp [fwdSubject, h],
    fun s h => by simp [fwdSubject, h],
    fun s => ?_⟩
  · by_cases h : pyStartsWith (pyLower s) "re:" = true
    · simp [replySubject, h]
    · have hrs : replySubject s = pyStrip ("Re: " ++ s) := by
        unfold replySubject
        rw [if_neg h]
      rw [hrs]
      unfold replySubject
      rw [if_pos (replySubject_prefixed_starts s)]
  · by_cases h : pyStartsWith (pyLower s) "fwd:" = true
    · simp [fwdSubject, h]
    · have hfs : fwdSubject s = pyStrip ("Fwd: " ++ s) := by
        unfold fwdSubject
        rw [if_neg h]
      rw [hfs]
      unfold fwdSubject
      rw [if_pos (fwdSubject_prefixed_starts s)]

/-- Witness for C4 at the spec's concrete examples. -/
theorem C4_subject_prefixing_witness :
    replySubject "Re: hello" = "Re: hello" ∧
    replySubject "hello" = "Re: hello" ∧
    fwdSubject "Q3 report" = "Fwd: Q3 report" ∧
    fwdSubject (fwdSubject "Q3 report") = fwdSubject "Q3 report" :=
  ⟨C4_subject_prefixing.1 "Re: hello" (by decide),
    (C4_subject_prefixing.2.1 "hello" (by decide)).trans (by decide),
    (C4_subject_prefixing.2.2.2.2.1 "Q3 report" (by decide)).trans (by decide),
    C4_subject_prefixing.2.2.2.2.2 "Q3 report"⟩

/-- C4 counterexample: on the empty original subject (the default when the
`Subject` header is missing) the computed reply subject is `"Re:"`, not the
claimed `"Re: " ++ subject = "Re: "` — the trailing space is stripped. -/
theorem C4_counterexample :
    replySubject "" = "Re:" ∧ replySubject "" ≠ "Re: " ++ "" := by
  constructor
  · decide
  · decide

/-- Python truthiness on an optional string: `None` and `""` are both falsy. -/
def truthyOpt : Option String → Option String
  | some s => if s = "" then none else some s
  | none => none

/-- Python `a or b` for an optional string `a` with string fallback `b`. -/
def pyOrStr (a : Option String) (b : String) : String :=
  match truthyOpt a with
  | some s => s
  | none => b

/-- The value of one base64 alphabet character (standard alphabet). -/
def b64charVal (c : Char) : Option Nat :=
  if 'A' ≤ c ∧ c ≤ 'Z' then some (c.toNat - 65)
  else if 'a' ≤ c ∧ c ≤ 'z' then some (c.toNat - 97 + 26)
  else if '0' ≤ c ∧ c ≤ '9' then some (c.toNat - 48 + 52)
  else if c = '+' then some 62
  else if c = '/' then some 63
  else none

/-- Decode a list of 6-bit values into bytes, 4 values to 3 bytes, with the
final partial group of 2 or 3 values giving 1 or 2 bytes. -/
def b64chunks : List Nat → List Nat
  | a :: b :: c :: d :: rest =>
    let v := ((a * 64 + b) * 64 + c) * 64 + d
    v / 65536 :: v / 256 % 256 :: v % 256 :: b64chunks rest
  | [a, b] => [(a * 64 + b) / 16]
  | [a, b, c] => [((a * 64 + b) * 64 + c) / 1024, ((a * 64 + b) * 64 + c) / 4 % 256]
  | _ => []

/-- Python `base64.b64decode` in its default non-strict mode: characters
outside the standard alphabet are discarded and `=` counts only towards
padding; a data length of 1 mod 4, or of 2/3 mod 4 without enough padding
characters, raises `binascii.Error` (modelled as `none`). -/
def b64decode (s : String) : Option (List Nat) :=
  let ds := s.data.filterMap b64charVal
  let npad := (s.data.filter (fun c => c = '=')).length
  match ds.length % 4 with
  | 0 => some (b64chunks ds)
  | 2 => if 2 ≤ npad then some (b64chunks ds) else none
  | 3 => if 1 ≤ npad then some (b64chunks ds) else none
  | _ => none

/-- The lowercased extension of a filename after its last dot (with the dot),
or `""` when there is no dot. -/
def fileExt (filename : String) : String :=
  if filename.data.contains '.' then
    ⟨'.' :: (filename.data.reverse.takeWhile (fun c => c ≠ '.')).reverse.map
      Char.toLower⟩
  else ""

/-- Python `mimetypes.guess_type(filename)[0]`, modelled on the common entries
of the standard table; unknown extensions guess nothing. -/
def guess_type (filename : String) : Option String :=
  match fileExt filename with
  | ".txt" => some "text/plain"
  | ".html" => some "text/html"
  | ".htm" => some "text/html"
  | ".csv" => some "text/csv"
  | ".json" => some "application/json"
  | ".pdf" => some "application/pdf"
  | ".png" => some "image/png"
  | ".jpg" => some "image/jpeg"
  | ".jpeg" => some "image/jpeg"
  | ".gif" => some "image/gif"
  | ".zip" => some "application/zip"
  | _ => none

/-- Python `os.path.basename`. -/
def basename (p : String) : String :=
  ⟨(p.data.reverse.takeWhile (fun c => c ≠ '/')).reverse⟩

/-- A resolved attachment: concrete bytes, filename and mime type. -/
structure ResolvedAttachment where
  data : List Nat
  filename : String
  mimeType : String
deriving DecidableEq, Repr

/-- The per-attachment resolution step of `_add_attachments`
(`gmail_client.py` lines 44-61).  `fs` models the file system (absolute-path
resolution, existence check and whole-file read); it is used only by the
file-path branch.  Mirrors the source order: in the inline branch the base64
decode happens before the filename check. -/
def resolveAttachment (fs : String → Option (List Nat)) (a : AttachmentSpec) :
    Except GmailError ResolvedAttachment :=
  match a.contentBase64 with
  | some content =>
    match b64decode content with
    | none => .error .Base64DecodeError
    | some data =>
      match truthyOpt a.filename with
      | none => .error .MissingFilename
      | some f =>
        .ok ⟨data, f,
          pyOrStr a.mimeType (pyOrStr (guess_type f) "application/octet-stream")⟩
  | none =>
    match truthyOpt a.path with
    | none => .error .MissingPathOrContent
    | some p =>
      match fs p with
      | none => .error (.FileNotFound p)
      | some data =>
        let f := pyOrStr a.filename (basename p)
        .ok ⟨data, f,
          pyOrStr a.mimeType (pyOrStr (guess_type f) "application/octet-stream")⟩

/-- Split a character list at the first `/`. -/
def splitFirstSlash : List Char → Option (List Char × List Char)
  | [] => none
  | c :: cs =>
    if c = '/' then some ([], cs)
    else (splitFirstSlash cs).map (fun pr => (c :: pr.1, pr.2))

/-- Python `mime_type.split("/", 1)` restricted to the two-component unpacking
of `_add_attachments` line 62: a string without `/` makes the unpacking fail
(`ValueError`, the spec's `InvalidMimeType`). -/
def splitMime (m : String) : Option (String × String) :=
  (splitFirstSlash m.data).map (fun pr => (⟨pr.1⟩, ⟨pr.2⟩))

/-- An attachment part of the composed message
(`message.add_attachment(data, maintype, subtype, filename)`). -/
structure AttachmentPart where
  data : List Nat
  maintype : String
  subtype : String
  filename : String
deriving DecidableEq, Repr

/-- `maintype, subtype = mime_type.split("/", 1)` followed by
`message.add_attachment` (`gmail_client.py` lines 62-63). -/
def attachResolved (r : ResolvedAttachment) : Except GmailError AttachmentPart :=
  match splitMime r.mimeType with
  | none => .error (.InvalidMimeType r.mimeType)
  | some (mt, st) => .ok ⟨r.data, mt, st, r.filename⟩

/-- `_add_attachments` over the whole attachment list (`None` is modelled as
the empty list); the first failing attachment aborts the composition. -/
def add_attachments (fs : String → Option (List Nat)) :
    List AttachmentSpec → Except GmailError (List AttachmentPart)
  | [] => .ok []
  | a :: rest =>
    match resolveAttachment fs a with
    | .error e => .error e
    | .ok r =>
      match attachResolved r with
      | .error e => .error e
      | .ok p =>
        match add_attachments fs rest with
        | .error e => .error e
        | .ok ps => .ok (p :: ps)

theorem splitFirstSlash_eq_none_iff (l : List Char) :
    splitFirstSlash l = none ↔ '/' ∉ l := by
  induction l with
  | nil => simp [splitFirstSlash]
  | cons c cs ih =>
    by_cases hc : c = '/'
    · simp [splitFirstSlash, hc]
    · simp [splitFirstSlash, hc, Option.map_eq_none, ih, Ne.symm hc]

theorem splitFirstSlash_append (a b : List Char) (h : '/' ∉ a) :
    splitFirstSlash (a ++ '/' :: b) = some (a, b) := by
  induction a with
  | nil => simp [splitFirstSlash]
  | cons c cs ih =>
    have hc : c ≠ '/' := by
      intro hh
      exact h (hh ▸ List.mem_cons_self c cs)
    have hcs : '/' ∉ cs := fun hh => h (List.mem_cons_of_mem c hh)
    simp [splitFirstSlash, hc, ih hcs]

/-- C6 (amended): inline-bytes attachment resolution decodes the content
before the filename check, so undecodable content fails with a base64 decode
error even when the filename is also missing; when the content decodes, an
absent (or empty) filename fails with `MissingFilename`, and otherwise the
resolved bytes are the base64 decoding of the content and the mime type is the
explicit value if truthy, else the extension-based guess, else
`application/octet-stream`. -/
theorem C6_inline_attachment_resolution :
    (∀ (fs : String → Option (List Nat)) (a : AttachmentSpec)
        (content : String),
      a.contentBase64 = some content → b64decode content = none →
      resolveAttachment fs a = .error .Base64DecodeError) ∧
    (∀ (fs : String → Option (List Nat)) (a : AttachmentSpec)
        (content : String) (bs : List Nat),
      a.contentBase64 = some content → b64decode content = some bs →
      truthyOpt a.filename = none →
      resolveAttachment fs a = .error .MissingFilename) ∧
    (∀ (fs : String → Option (List Nat)) (a : AttachmentSpec)
        (content : String) (bs : List Nat) (f : String),
      a.contentBase64 = some content → b64decode content = some bs →
      truthyOpt a.filename = some f →
      resolveAttachment fs a = .ok ⟨bs, f,
        pyOrStr a.mimeType (pyOrStr (guess_type f) "application/octet-stream")⟩)
    := by
  refine ⟨?_, ?_, ?_⟩
  · intro fs a content hc hd
    simp [resolveAttachment, hc, hd]
  · intro fs a content bs hc hd hf
    simp [resolveAttachment, hc, hd, hf]
  · intro fs a content bs f hc hd hf
    simp [resolveAttachment, hc, hd, hf]

/-- Witness for C6 at the spec's concrete example: base64("hi") with filename
`a.txt` resolves to the bytes of "hi" and mime type `text/plain`. -/
theorem C6_inline_attachment_resolution_witness :
    resolveAttachment (fun _ => none)
        ⟨some "aGk=", none, some "a.txt", none⟩ =
      .ok ⟨[104, 105], "a.txt", "text/plain"⟩ :=
  (C6_inline_attachment_resolution.2.2 (fun _ => none)
    ⟨some "aGk=", none, some "a.txt", none⟩ "aGk=" [104, 105] "a.txt"
    rfl (by decide) (by decide)).trans rfl

/-- C6 counterexample: an inline attachment whose content is not valid base64
and whose filename is absent fails with the decode error, not with
`MissingFilename`, because the source decodes before checking the filename. -/
theorem C6_counterexample :
    resolveAttachment (fun _ => none)
        ⟨some "A", none, none, none⟩ = .error .Base64DecodeError ∧
    GmailError.Base64DecodeError ≠ GmailError.MissingFilename := by
  constructor
  · rfl
  · decide

/-- C7: an attachment whose resolved mime type has no `/` separator fails the
composition with `InvalidMimeType`; a mime type containing `/` is split at its
first `/` into major and minor components and the part is added
successfully. -/
theorem C7_mime_type_split :
    (∀ r : ResolvedAttachment, '/' ∉ r.mimeType.data →
      attachResolved r = .error (.InvalidMimeType r.mimeType)) ∧
    (∀ (d : List Nat) (f : String) (a b : List Char), '/' ∉ a →
      attachResolved ⟨d, f, ⟨a ++ '/' :: b⟩⟩ = .ok ⟨d, ⟨a⟩, ⟨b⟩, f⟩) := by
  constructor
  · intro r h
    have hs : splitFirstSlash r.mimeType.data = none :=
      (splitFirstSlash_eq_none_iff _).mpr h
    simp [attachResolved, splitMime, hs]
  · intro d f a b h
    simp [attachResolved, splitMime, splitFirstSlash_append a b h]

/-- Witness for C7 at a concrete mime type with and without the separator. -/
theorem C7_mime_type_split_witness :
    attachResolved ⟨[104, 105], "a.bin",
        ⟨"application".data ++ '/' :: "octet-stream".data⟩⟩ =
      .ok ⟨[104, 105], "application", "octet-stream", "a.bin"⟩ ∧
    attachResolved ⟨[104, 105], "a.bin", "noslash"⟩ =
      .error (.InvalidMimeType "noslash") :=
  ⟨C7_mime_type_split.2 [104, 105] "a.bin" "application".data
      "octet-stream".data (by decide),
    C7_mime_type_split.1 ⟨[104, 105], "a.bin", "noslash"⟩ (by decide)⟩

/-- Python `a or b` where both values are optional strings. -/
def pyOrOpt (a b : Option String) : Option String :=
  match truthyOpt a with
  | some s => some s
  | none => b

/-- Python `str.split()` with no argument: split on runs of whitespace,
producing no empty fields. -/
def splitWsAux : List Char → List Char → List String
  | [], acc => if acc.isEmpty then [] else [⟨acc.reverse⟩]
  | c :: cs, acc =>
    if c.isWhitespace then
      (if acc.isEmpty then [] else [⟨acc.reverse⟩]) ++ splitWsAux cs []
    else splitWsAux cs (c :: acc)

/-- Python `str.split()` (whitespace runs as separators). -/
def pySplitWs (s : String) : List String := splitWsAux s.data []

/-- `_normalize_references` (`gmail_client.py` lines 33-38) on a list input:
`None`/empty gives no header value, otherwise the space-join of the non-empty
entries.  (The pass-through branch for a plain-string input is unreachable in
this typed embedding, where callers always pass a list.) -/
def normalize_references (references : List String) : Option String :=
  if references.isEmpty then none
  else some (String.intercalate " " (references.filter (fun r => r ≠ "")))

/-- The original-message header mapping fetched by `_get_message_metadata`
(`gmail_client.py` lines 103-110); every header may be absent. -/
structure MetaHeaders where
  subject : Option String := none
  fromAddr : Option String := none
  toHdr : Option String := none
  date : Option String := none
  messageId : Option String := none
  references : Option String := none
deriving DecidableEq, Repr

/-- The prior message as seen by the threading code: thread id, snippet and
headers. -/
structure OrigMessage where
  threadId : Option String := none
  snippet : String := ""
  headers : MetaHeaders := {}
deriving DecidableEq, Repr

/-- The outbound `EmailMessage` assembled by `send_email` (`gmail_client.py`
lines 79-90): headers, bodies and attachment parts. -/
structure ComposedMessage where
  toAddr : String
  subject : String
  inReplyTo : Option String
  references : Option String
  body : String
  htmlBody : Option String
  attachments : List AttachmentPart
deriving DecidableEq, Repr

/-- `send_email` (`gmail_client.py` lines 66-97) up to the transport call: the
composed message and the optional `threadId` carried alongside the encoded
payload.  The `In-Reply-To` and `References` headers are set only when truthy;
attachment failure aborts the composition. -/
def send_email (fs : String → Option (List Nat))
    (toAddr subject body : String) (htmlBody : Option String)
    (attachments : List AttachmentSpec) (threadId : Option String)
    (inReplyTo : Option String) (references : List String) :
    Except GmailError (ComposedMessage × Option String) :=
  match add_attachments fs attachments with
  | .error e => .error e
  | .ok parts =>
    .ok (⟨toAddr, subject, truthyOpt inReplyTo,
          truthyOpt (normalize_references references), body, htmlBody, parts⟩,
      truthyOpt threadId)

/-- The references chain built by `reply_to_message` (`gmail_client.py` lines
205-211): the original `References` header split on whitespace when truthy,
with the original `Message-ID` appended when truthy. -/
def replyReferences (referencesHeader : Option String)
    (messageId : Option String) : List String :=
  let rh := referencesHeader.getD ""
  let refs := if rh = "" then [] else pySplitWs rh
  match truthyOpt messageId with
  | some m => refs ++ [m]
  | none => refs

/-- `reply_to_message` (`gmail_client.py` lines 193-213) up to the transport
call. -/
def reply_to_message (fs : String → Option (List Nat)) (orig : OrigMessage)
    (body : String) (htmlBody : Option String)
    (attachments : List AttachmentSpec) (toOverride : Option String) :
    Except GmailError (ComposedMessage × Option String) :=
  match truthyOpt (pyOrOpt toOverride orig.headers.fromAddr) with
  | none => .error .MissingFromHeader
  | some toAddr =>
    send_email fs toAddr (replySubject (orig.headers.subject.getD ""))
      body htmlBody attachments orig.threadId orig.headers.messageId
      (replyReferences orig.headers.references orig.headers.messageId)

/-- Python `html.escape` (with quoting), characterwise. -/
def htmlEscapeChar (c : Char) : List Char :=
  if c = '&' then "&amp;".data
  else if c = '<' then "&lt;".data
  else if c = '>' then "&gt;".data
  else if c = Char.ofNat 34 then "&quot;".data
  else if c = Char.ofNat 39 then "&#x27;".data
  else [c]

/-- Python `html.escape`. -/
def htmlEscape (s : String) : String := ⟨(s.data.map htmlEscapeChar).flatten⟩

/-- The plain-text forwarded-header block of `forward_message`
(`gmail_client.py` lines 228-232). -/
def forwardedBlock (orig : OrigMessage) (includeSnippet : Bool) : List String :=
  ["", "---- Forwarded message ----",
    "From: " ++ orig.headers.fromAddr.getD "",
    "Date: " ++ orig.headers.date.getD "",
    "Subject: " ++ orig.headers.subject.getD "",
    "To: " ++ orig.headers.toHdr.getD "", ""]
  ++ (if includeSnippet then [orig.snippet] else [])

/-- `forward_message` (`gmail_client.py` lines 219-246) up to the transport
call: prefix the subject, build the forwarded text and optional HTML block,
and send bound to the original message's thread id. -/
def forward_message (fs : String → Option (List Nat)) (orig : OrigMessage)
    (toAddr body : String) (htmlBody : Option String)
    (attachments : List AttachmentSpec) (includeSnippet : Bool) :
    Except GmailError (ComposedMessage × Option String) :=
  let forwardedText :=
    body ++ "\n" ++ String.intercalate "\n" (forwardedBlock orig includeSnippet)
  let forwardedHtml : Option String :=
    match htmlBody with
    | none => none
    | some h =>
      some (h ++ "<hr><p><strong>Forwarded message</strong></p>"
        ++ "<p>From: " ++ htmlEscape (orig.headers.fromAddr.getD "") ++ "<br>"
        ++ "Date: " ++ htmlEscape (orig.headers.date.getD "") ++ "<br>"
        ++ "Subject: " ++ htmlEscape (orig.headers.subject.getD "") ++ "<br>"
        ++ "To: " ++ htmlEscape (orig.headers.toHdr.getD "") ++ "</p>"
        ++ (if includeSnippet then "<pre>" ++ htmlEscape orig.snippet ++ "</pre>"
            else ""))
  send_email fs toAddr (fwdSubject (orig.headers.subject.getD ""))
    forwardedText forwardedHtml attachments orig.threadId none []

/-- C3: the outgoing reply references chain is the original `References`
header split on whitespace with the original `Message-ID` appended at the end;
with no `References` header but a `Message-ID`, the chain is just that id;
an empty chain yields no `References` header in the composed message; and the
spec's concrete example holds. -/
theorem C3_reply_references :
    (∀ (rh : Option String) (mid : String), mid ≠ "" →
      replyReferences rh (some mid) = pySplitWs (rh.getD "") ++ [mid]) ∧
    (∀ mid : String, mid ≠ "" → replyReferences none (some mid) = [mid]) ∧
    (∀ (fs : String → Option (List Nat)) (orig : OrigMessage) (body : String)
        (htmlBody : Option String) (attachments : List AttachmentSpec)
        (toOverride : Option String) (comp : ComposedMessage)
        (pt : Option String),
      replyReferences orig.headers.references orig.headers.messageId = [] →
      reply_to_message fs orig body htmlBody attachments toOverride
        = .ok (comp, pt) →
      comp.references = none) ∧
    replyReferences (some "<a> <b>") (some "<c>") = ["<a>", "<b>", "<c>"] := by
  refine ⟨?_, ?_, ?_, by decide⟩
  · intro rh mid hmid
    by_cases hrh : rh.getD "" = ""
    · simp [replyReferences, truthyOpt, hmid, hrh, pySplitWs, splitWsAux]
    · simp [replyReferences, truthyOpt, hmid, hrh]
  · intro mid hmid
    simp [replyReferences, truthyOpt, hmid]
  · intro fs orig body htmlBody attachments toOverride comp pt hrefs h
    unfold reply_to_message at h
    cases hto : truthyOpt (pyOrOpt toOverride orig.headers.fromAddr) with
    | none =>
      rw [hto] at h
      exact absurd h (by simp)
    | some toAddr =>
      rw [hto] at h
      unfold send_email at h
      rw [hrefs] at h
      cases hat : add_attachments fs attachments with
      | error e =>
        rw [hat] at h
        simp at h
      | ok parts =>
        rw [hat] at h
        simp only [Except.ok.injEq, Prod.mk.injEq] at h
        obtain ⟨hcomp, -⟩ := h
        rw [← hcomp]
        rfl

/-- Witness for C3 at the spec's concrete example and at a message with no
prior references. -/
theorem C3_reply_references_witness :
    (replyReferences (some "<a> <b>") (some "<c>") = pySplitWs "<a> <b>"
        ++ ["<c>"]) ∧
    replyReferences none (some "<m>") = ["<m>"] ∧
    (ComposedMessage.references
      ⟨"x@y.z", "Re:", none, none, "b", none, []⟩ = none) :=
  ⟨C3_reply_references.1 (some "<a> <b>") "<c>" (by decide),
    C3_reply_references.2.1 "<m>" (by decide),
    C3_reply_references.2.2.1 (fun _ => none)
      { headers := { fromAddr := some "x@y.z" } } "b" none [] none
      ⟨"x@y.z", "Re:", none, none, "b", none, []⟩ none rfl (by rfl)⟩

/-- C9: a successfully composed forward is bound to the original message's
thread id — the sent payload carries the original `threadId`. -/
theorem C9_forward_thread_binding :
    ∀ (fs : String → Option (List Nat)) (orig : OrigMessage)
      (toAddr body : String) (htmlBody : Option String)
      (attachments : List AttachmentSpec) (includeSnippet : Bool)
      (t : String) (comp : ComposedMessage) (pt : Option String),
      orig.threadId = some t → t ≠ "" →
      forward_message fs orig toAddr body htmlBody attachments includeSnippet
        = .ok (comp, pt) →
      pt = some t := by
  intro fs orig toAddr body htmlBody attachments includeSnippet t comp pt
    hthread ht h
  unfold forward_message send_email at h
  cases hat : add_attachments fs attachments with
  | error e =>
    rw [hat] at h
    simp at h
  | ok parts =>
    rw [hat] at h
    simp only [Except.ok.injEq, Prod.mk.injEq] at h
    obtain ⟨-, hpt⟩ := h
    rw [← hpt, hthread]
    simp [truthyOpt, ht]

/-- Witness for C9 at a concrete original message with thread id `t123`. -/
theorem C9_forward_thread_binding_witness :
    (some "t123" : Option String) = some "t123" :=
  C9_forward_thread_binding (fun _ => none)
    { threadId := some "t123", snippet := "",
      headers := { fromAddr := some "x@y.z" } }
    "to@x.y" "body" none [] true "t123"
    ((forward_message (fun _ => none)
      { threadId := some "t123", snippet := "",
        headers := { fromAddr := some "x@y.z" } }
      "to@x.y" "body" none [] true).toOption.get (by rfl)).1
    (some "t123") rfl (by decide) (by rfl)

/-- A node of the Gmail `payload` part tree: `mimeType`, optional `body.data`,
and the ordered `parts` children. -/
inductive MimePart where
  | node : String → Option String → List MimePart → MimePart

mutual

/-- The `extract_parts` closure of `get_message` (`gmail_client.py` lines
132-143), also duplicated verbatim inside `get_thread` (lines 170-181): walk
the tree depth-first, and for every part with truthy body data assign the
decoded text to `body_text` / `body_html` according to the part's mime type.
`dec` stands for `base64.urlsafe_b64decode(...).decode("utf-8",
errors="replace")`.  The state is the pair `(body_text, body_html)`. -/
def extractParts (dec : String → String) : MimePart → String × String →
    String × String
  | .node mimeType bodyData parts, st =>
    extractPartsList dec parts
      (match bodyData with
       | some d =>
         if d = "" then st
         else if mimeType = "text/plain" then (dec d, st.2)
         else if mimeType = "text/html" then (st.1, dec d)
         else st
       | none => st)

/-- The recursion of `extract_parts` over the `parts` children, in order. -/
def extractPartsList (dec : String → String) : List MimePart → String × String →
    String × String
  | [], st => st
  | p :: ps, st => extractPartsList dec ps (extractParts dec p st)

end

mutual

/-- The parts with truthy body data, as `(mimeType, data)` pairs, in the
depth-first visiting order of `extract_parts`. -/
def dfsLeaves : MimePart → List (String × String)
  | .node mimeType bodyData parts =>
    (match bodyData with
     | some d => if d = "" then [] else [(mimeType, d)]
     | none => []) ++ dfsLeavesList parts

/-- `dfsLeaves` over a list of children, in order. -/
def dfsLeavesList : List MimePart → List (String × String)
  | [] => []
  | p :: ps => dfsLeaves p ++ dfsLeavesList ps

end

/-- The state update `extract_parts` performs for one part with truthy body
data. -/
def stepLeaf (dec : String → String) (st : String × String)
    (leaf : String × String) : String × String :=
  if leaf.1 = "text/plain" then (dec leaf.2, st.2)
  else if leaf.1 = "text/html" then (st.1, dec leaf.2)
  else st

/-- The full-format body extraction of `get_message` / `get_thread`:
run `extract_parts` on the payload starting from empty bodies. -/
def getMessageBody (dec : String → String) (payload : MimePart) : String × String :=
  extractParts dec payload ("", "")

theorem extractParts_node (dec : String → String) (mt : String)
    (bd : Option String) (ps : List MimePart) (st : String × String) :
    extractParts dec (MimePart.node mt bd ps) st =
      extractPartsList dec ps
        (match bd with
         | some d =>
           if d = "" then st
           else if mt = "text/plain" then (dec d, st.2)
           else if mt = "text/html" then (st.1, dec d)
           else st
         | none => st) := by
  rw [extractParts.eq_def]

theorem extractPartsList_nil (dec : String → String) (st : String × String) :
    extractPartsList dec [] st = st := by
  rw [extractPartsList.eq_def]

theorem extractPartsList_cons (dec : String → String) (p : MimePart)
    (ps : List MimePart) (st : String × String) :
    extractPartsList dec (p :: ps) st =
      extractPartsList dec ps (extractParts dec p st) := by
  rw [extractPartsList.eq_def]

theorem dfsLeaves_node (mt : String) (bd : Option String)
    (ps : List MimePart) :
    dfsLeaves (MimePart.node mt bd ps) =
      (match bd with
       | some d => if d = "" then [] else [(mt, d)]
       | none => []) ++ dfsLeavesList ps := by
  rw [dfsLeaves.eq_def]

theorem dfsLeavesList_nil : dfsLeavesList [] = [] := by
  rw [dfsLeavesList.eq_def]

theorem dfsLeavesList_cons (p : MimePart) (ps : List MimePart) :
    dfsLeavesList (p :: ps) = dfsLeaves p ++ dfsLeavesList ps := by
  rw [dfsLeavesList.eq_def]

mutual

theorem extractParts_eq_foldl (dec : String → String) (p : MimePart)
    (st : String × String) :
    extractParts dec p st = (dfsLeaves p).foldl (stepLeaf dec) st := by
  cases p with
  | node mimeType bodyData parts =>
    rw [extractParts_node, dfsLeaves_node, List.foldl_append,
      extractPartsList_eq_foldl dec parts]
    congr 1
    cases bodyData with
    | none => rfl
    | some d =>
      by_cases hd : d = ""
      · simp [hd]
      · simp only [hd, if_false]
        by_cases hp : mimeType = "text/plain"
        · simp [hp, stepLeaf]
        · by_cases hh : mimeType = "text/html"
          · simp [hp, hh, stepLeaf]
          · simp [hp, hh, stepLeaf]

theorem extractPartsList_eq_foldl (dec : String → String) (ps : List MimePart)
    (st : String × String) :
    extractPartsList dec ps st = (dfsLeavesList ps).foldl (stepLeaf dec) st := by
  cases ps with
  | nil =>
    rw [extractPartsList_nil, dfsLeavesList_nil, List.foldl_nil]
  | cons p rest =>
    rw [extractPartsList_cons, dfsLeavesList_cons, List.foldl_append,
      extractParts_eq_foldl dec p, extractPartsList_eq_foldl dec rest]

end

theorem foldl_stepLeaf_fst (dec : String → String)
    (leaves : List (String × String)) (st : String × String) :
    (leaves.foldl (stepLeaf dec) st).1
      = match (leaves.filter (fun l => l.1 == "text/plain")).getLast? with
        | some l => dec l.2
        | none => st.1 := by
  induction leaves using List.reverseRecOn generalizing st with
  | nil => rfl
  | append_singleton l x ih =>
    rw [List.foldl_append, List.filter_append]
    by_cases hx : x.1 = "text/plain"
    · simp [stepLeaf, hx]
    · have hx' : (x.1 == "text/plain") = false := by
        simpa using hx
      by_cases hh : x.1 = "text/html"
      · simp [List.foldl, stepLeaf, hx, hh, hx', ih]
      · simp [List.foldl, stepLeaf, hx, hh, hx', ih]

theorem foldl_stepLeaf_snd (dec : String → String)
    (leaves : List (String × String)) (st : String × String) :
    (leaves.foldl (stepLeaf dec) st).2
      = match (leaves.filter (fun l => l.1 == "text/html")).getLast? with
        | some l => dec l.2
        | none => st.2 := by
  induction leaves using List.reverseRecOn generalizing st with
  | nil => rfl
  | append_singleton l x ih =>
    rw [List.foldl_append, List.filter_append]
    by_cases hh : x.1 = "text/html"
    · have hp : x.1 ≠ "text/plain" := by
        rw [hh]
        decide
      simp [List.foldl, stepLeaf, hp, hh]
    · have hh' : (x.1 == "text/html") = false := by
        simpa using hh
      by_cases hp : x.1 = "text/plain"
      · simp [List.foldl, stepLeaf, hp, hh, hh', ih]
      · simp [List.foldl, stepLeaf, hp, hh, hh', ih]

/-- C1 (amended): for every decode function and part tree, the extracted
`body_text` is the decoding of the LAST text/plain part with truthy body data
in the depth-first walk, and `body_html` the decoding of the LAST text/html
part — each later part of the same type OVERWRITES the earlier one (empty
string when there is none); `get_thread` runs the identical closure per
message. -/
theorem C1_body_extraction_takes_last :
    ∀ (dec : String → String) (p : MimePart),
      (getMessageBody dec p).1
        = (match ((dfsLeaves p).filter (fun l => l.1 == "text/plain")).getLast?
            with
           | some l => dec l.2
           | none => "") ∧
      (getMessageBody dec p).2
        = (match ((dfsLeaves p).filter (fun l => l.1 == "text/html")).getLast?
            with
           | some l => dec l.2
           | none => "") := by
  intro dec p
  unfold getMessageBody
  rw [extractParts_eq_foldl]
  exact ⟨foldl_stepLeaf_fst dec (dfsLeaves p) ("", ""),
    foldl_stepLeaf_snd dec (dfsLeaves p) ("", "")⟩

/-- The extraction the spec claims (section 3 invariant): the FIRST text/plain
and FIRST text/html leaf encountered in the depth-first walk, later parts of
the same type ignored. -/
def specFirstBody (dec : String → String) (p : MimePart) : String × String :=
  (match ((dfsLeaves p).filter (fun l => l.1 == "text/plain")).head? with
   | some l => dec l.2
   | none => "",
   match ((dfsLeaves p).filter (fun l => l.1 == "text/html")).head? with
   | some l => dec l.2
   | none => "")

/-- A two-leaf multipart payload distinguishing first-wins from last-wins. -/
def samplePartTree : MimePart :=
  MimePart.node "multipart/alternative" none
    [MimePart.node "text/plain" (some "first") [],
     MimePart.node "text/plain" (some "second") []]

/-- C1 counterexample: on a payload with two text/plain leaves the code
returns the decoding of the second (last) leaf, while the claimed extraction
returns the first; the two disagree. -/
theorem C1_counterexample :
    (getMessageBody id samplePartTree).1 = "second" ∧
    (specFirstBody id samplePartTree).1 = "first" ∧
    getMessageBody id samplePartTree ≠ specFirstBody id samplePartTree := by
  have hcode : getMessageBody id samplePartTree = ("second", "") := by
    simp only [getMessageBody, samplePartTree, extractParts_node,
      extractPartsList_cons, extractPartsList_nil]
    decide
  have hspec : specFirstBody id samplePartTree = ("first", "") := by
    simp only [specFirstBody, samplePartTree, dfsLeaves_node,
      dfsLeavesList_cons, dfsLeavesList_nil]
    decide
  refine ⟨by rw [hcode], by rw [hspec], ?_⟩
  rw [hcode, hspec]
  decide
